import Mathlib

/- Shallow embedding of the MuseumPassAI booking service (src/main.py).

   The service is a single-file FastAPI app.  The parts embedded here are the
   ones the verified properties need: the booking request model, museum
   resolution (find_best_museum), the booking validator and price computation
   (book_ticket), the flat-file ledger (check_capacity / save_booking), and the
   greeting branch of the chat dispatcher (get_relevant_museum).

   Modelling conventions:
   - Python floats are modelled by exact dyadic numbers (Dyadic below); every
     float produced by this program is an integer multiplied by 0.5, so the
     dyadic representation is exact.
   - The bookings file is modelled by Option FileContent: none stands for a
     missing file (FileNotFoundError on open), FileContent.empty for a file
     whose content strips to the empty string, FileContent.json l for a file
     holding a well-formed JSON array encoding the records l, and
     FileContent.corrupt for any other content.
   - The external json library is modelled by json_load: parsing a well-formed
     array yields its records, parsing empty or corrupt input raises
     JSONDecodeError (Except.error).  Crucially, the source evaluates
     f.read().strip() before json.load(f) in a conditional expression, so by
     the time json.load runs the file object is positioned at end of file and
     json.load parses empty input.
   - The external fuzzywuzzy scorer is abstracted as a function argument
     (scorer); process.extractOne is embedded as an argmax over the choices
     using that scorer, returning none on an empty choice list.
   - The wall clock is an explicit environment: todays date and the current
     hour.  Python date objects are PyDate triples; comparison of valid dates
     agrees with comparison of their proleptic Gregorian ordinals (toOrdinal).
-/

/-- Exact dyadic number m / 2 ^ e, modelling the Python floats this program
produces (every one is a Nat divided by a power of two).  normAux keeps the
representation canonical (odd mantissa or zero exponent), so structural
equality coincides with numeric equality. -/
structure Dyadic where
  m : Nat
  e : Nat
  deriving DecidableEq

/-- Canonicalize m / 2 ^ e by cancelling factors of two. -/
def Dyadic.normAux : Nat → Nat → Dyadic
  | m, 0 => ⟨m, 0⟩
  | m, e + 1 => if m % 2 = 0 then Dyadic.normAux (m / 2) e else ⟨m, e + 1⟩

def Dyadic.ofNat (n : Nat) : Dyadic := ⟨n, 0⟩

def Dyadic.add (a b : Dyadic) : Dyadic :=
  Dyadic.normAux (a.m * 2 ^ b.e + b.m * 2 ^ a.e) (a.e + b.e)

def Dyadic.mul (a b : Dyadic) : Dyadic :=
  Dyadic.normAux (a.m * b.m) (a.e + b.e)

/-- The Python float literal 0.5. -/
def pyHalf : Dyadic := ⟨1, 1⟩

/-- The rational value of a dyadic number. -/
def Dyadic.toRat (d : Dyadic) : ℚ := (d.m : ℚ) / 2 ^ d.e

/-- Lowercasing, modelling str.lower on the ASCII data this program handles. -/
def lowerStr (s : String) : String := String.mk (s.data.map Char.toLower)

/-- Uppercasing, modelling str.upper on the ASCII data this program handles. -/
def upperStr (s : String) : String := String.mk (s.data.map Char.toUpper)

/-- Python str.strip: drop leading and trailing whitespace. -/
def stripChars (l : List Char) : List Char :=
  ((l.dropWhile Char.isWhitespace).reverse.dropWhile Char.isWhitespace).reverse

def stripStr (s : String) : String := String.mk (stripChars s.data)

/-- Replace every maximal run of whitespace by a single space, modelling
re.sub applied to the whitespace pattern with a one-space replacement.  The
boolean records whether the previous character was part of a whitespace run. -/
def collapseWSAux : Bool → List Char → List Char
  | _, [] => []
  | prevWS, c :: cs =>
    if c.isWhitespace then
      (if prevWS then [] else [' ']) ++ collapseWSAux true cs
    else c :: collapseWSAux false cs

/-- Does the first list occur as a leading segment of the second? -/
def startsWithList : List Char → List Char → Bool
  | [], _ => true
  | _ :: _, [] => false
  | a :: as, b :: bs => a == b && startsWithList as bs

/-- Does the first list occur as a contiguous segment of the second?  Models
the Python substring test (needle in haystack). -/
def occursList (n : List Char) : List Char → Bool
  | [] => n.isEmpty
  | b :: bs => startsWithList n (b :: bs) || occursList n bs

/-- Python substring containment: occursStr haystack needle is true when
needle occurs contiguously in haystack. -/
def occursStr (haystack needle : String) : Bool := occursList needle.data haystack.data

/-- Replace every occurrence of pat (assumed nonempty) by rep, scanning left
to right; fuel bounds the recursion by the input length.  Models Python
str.replace for a nonempty pattern. -/
def replaceFuel (pat rep : List Char) : Nat → List Char → List Char
  | 0, l => l
  | _ + 1, [] => []
  | fuel + 1, c :: cs =>
    if startsWithList pat (c :: cs) then
      rep ++ replaceFuel pat rep fuel (List.drop pat.length (c :: cs))
    else c :: replaceFuel pat rep fuel cs

def replaceStr (s pat rep : String) : String :=
  String.mk (replaceFuel pat.data rep.data s.data.length s.data)

/-- Split a character list on a separator, modelling Python str.split with an
explicit separator (empty segments are kept). -/
def splitOnChar (sep : Char) (l : List Char) : List (List Char) :=
  l.foldr
    (fun c acc =>
      match acc with
      | [] => if c = sep then [[], []] else [[c]]
      | a :: as => if c = sep then [] :: (a :: as) else (c :: a) :: as)
    [[]]

/-- Parse a nonempty all-digit character list as a decimal Nat. -/
def digitsToNat (l : List Char) : Option Nat :=
  if l ≠ [] ∧ l.all Char.isDigit then
    some (l.foldl (fun n c => n * 10 + (c.toNat - 48)) 0)
  else none

/-- A museum record from museums.json: title, location, state, price, rating,
contact, address.  Prices are integers; the rating (a JSON number, unused by
the booking path) is kept as a dyadic. -/
structure MuseumRecord where
  title : String
  location : String
  state : String
  price : Nat
  rating : Dyadic
  contact : String
  address : String
  deriving DecidableEq

/-- A persisted booking, mirroring the booking_details dict built by
book_ticket: Name, Museum, Visitors (Adults, Kids), Ticket Type, Date,
Time Slot, Total Price. -/
structure BookingRecord where
  name : String
  museum : String
  adults : Nat
  kids : Nat
  ticketType : String
  date : String
  timeSlot : String
  totalPrice : Dyadic
  deriving DecidableEq

/-- Content of the bookings.json file.  empty: the content strips to the
empty string; json l: a well-formed JSON array encoding the records l;
corrupt: anything else. -/
inductive FileContent where
  | empty
  | json (records : List BookingRecord)
  | corrupt
  deriving DecidableEq

/-- The json library: json.load succeeds exactly on well-formed input.  On
empty input (in particular on a file object already positioned at end of
file) and on corrupt input it raises JSONDecodeError, modelled as error. -/
def json_load : FileContent → Except Unit (List BookingRecord)
  | FileContent.json l => Except.ok l
  | _ => Except.error ()

/-- Python truthiness of content.strip(): false only for content that strips
to the empty string (a dumped JSON array is never empty). -/
def nonEmptyAfterStrip : FileContent → Bool
  | FileContent.empty => false
  | _ => true

/-- The records a bookings file actually encodes (missing, empty and corrupt
files encode none).  This is the collection the spec calls the Ledger. -/
def storedRecords : Option FileContent → List BookingRecord
  | some (FileContent.json l) => l
  | _ => []

/-- A Python datetime.date: year, month, day. -/
structure PyDate where
  year : Nat
  month : Nat
  day : Nat
  deriving DecidableEq

def isLeap (y : Nat) : Bool := (y % 4 == 0 && y % 100 != 0) || y % 400 == 0

def daysInMonth (y m : Nat) : Nat :=
  if m = 2 then (if isLeap y then 29 else 28)
  else if m = 4 ∨ m = 6 ∨ m = 9 ∨ m = 11 then 30
  else 31

def daysBeforeMonth (y m : Nat) : Nat :=
  (List.range (m - 1)).foldl (fun acc i => acc + daysInMonth y (i + 1)) 0

/-- Proleptic Gregorian ordinal of a date (date.toordinal in Python:
0001-01-01 is day 1).  Comparison of valid Python dates agrees with
comparison of their ordinals, and adding a timedelta of n days adds n to the
ordinal. -/
def toOrdinal (d : PyDate) : Nat :=
  (d.year - 1) * 365 + (d.year - 1) / 4 - (d.year - 1) / 100 + (d.year - 1) / 400
    + daysBeforeMonth d.year d.month + d.day

/-- datetime.strptime(s, the YYYY-MM-DD format).date(): the string must be a
4-digit year, a 1-2 digit month in 1..12 and a 1-2 digit day, separated by
dashes with nothing left over, and the triple must be a valid calendar date
with year at least 1; otherwise ValueError is raised (none). -/
def parse_date (s : String) : Option PyDate :=
  match splitOnChar '-' s.data with
  | [ys, ms, ds] =>
    match digitsToNat ys, digitsToNat ms, digitsToNat ds with
    | some y, some m, some d =>
      if ys.length = 4 ∧ ms.length ≤ 2 ∧ ds.length ≤ 2 ∧
          1 ≤ y ∧ 1 ≤ m ∧ m ≤ 12 ∧ 1 ≤ d ∧ d ≤ daysInMonth y m then
        some ⟨y, m, d⟩
      else none
    | _, _, _ => none
  | _ => none

/-- clean_input (src/main.py line 10): strip every character that is neither a
word character nor whitespace, then lowercase. -/
def clean_input (text : String) : String :=
  lowerStr (String.mk (text.data.filter fun c => c.isAlphanum || c = '_' || c.isWhitespace))

/-- The fixed daily slot list TIME_SLOTS (src/main.py line 21). -/
def TIME_SLOTS : List String :=
  ["10:00 AM", "11:00 AM", "12:00 PM", "1:00 PM", "2:00 PM", "3:00 PM", "4:00 PM", "5:00 PM"]

/-- The tier table TICKET_TYPE (src/main.py line 22): tier name to price delta. -/
def TICKET_TYPE : List (String × Nat) := [("standard", 0), ("elite", 300), ("premium", 100)]

/-- The daily visitor cap MAX_VISITORS_PER_DAY (src/main.py line 23). -/
def MAX_VISITORS_PER_DAY : Nat := 500

/-- normalize_time_slot (src/main.py lines 25-26): strip, uppercase, collapse
whitespace runs to a single space, drop dots. -/
def normalize_time_slot (time_slot : String) : String :=
  String.mk ((collapseWSAux false ((stripChars time_slot.data).map Char.toUpper)).filter fun c => c ≠ '.')

/-- The leading number of a slot string: int(slot.split(the colon)[0]).  Only
ever applied to the TIME_SLOTS constants, whose leading segments are numeric. -/
def slotHour (slot : String) : Nat :=
  (digitsToNat ((splitOnChar ':' slot.data).headD [])).getD 0

/-- The Python comparison of the raw date string against
datetime.date.today() inside get_available_time_slots.  book_ticket passes
request.booking_date, a str, and comparing a str with a date object for
equality is always False in Python, whatever their values. -/
def strEqPyDate (_ : String) (_ : PyDate) : Bool := false

/-- get_available_time_slots (src/main.py lines 28-33), as called by
book_ticket: booking_date is the raw request string.  Because strEqPyDate is
the Python str-versus-date equality, the today branch is unreachable. -/
def get_available_time_slots (booking_date : String) (today : PyDate) (current_hour : Nat) :
    List String :=
  if strEqPyDate booking_date today then
    TIME_SLOTS.filter (fun slot => current_hour < slotHour slot)
  else TIME_SLOTS

/-- The sum comprehension inside check_capacity (src/main.py line 41):
visitors of bookings whose museum matches case-insensitively and whose date
string matches exactly. -/
def visitorSum (museum_name date : String) (bookings : List BookingRecord) : Nat :=
  ((bookings.filter fun b => lowerStr b.museum == lowerStr museum_name && b.date == date).map
    fun b => b.adults + b.kids).sum

/-- check_capacity (src/main.py lines 35-41).  The conditional expression
evaluates f.read().strip() first, so when json.load(f) runs the file object
is at end of file and parses empty input: JSONDecodeError is raised and
caught, returning 0.  A missing file (none) also returns 0. -/
def check_capacity (museum_name date : String) (file : Option FileContent) : Nat :=
  match file with
  | none => 0
  | some c =>
    if nonEmptyAfterStrip c then
      match json_load FileContent.empty with
      | Except.ok bookings => visitorSum museum_name date bookings
      | Except.error _ => 0
    else visitorSum museum_name date []

/-- save_booking (src/main.py lines 43-52): read the existing collection with
the same conditional expression as check_capacity (same end-of-file effect,
JSONDecodeError caught as an empty list), append the new record, write the
whole collection back as a JSON array. -/
def save_booking (booking_details : BookingRecord) (file : Option FileContent) :
    Option FileContent :=
  let bookings :=
    match file with
    | none => []
    | some c =>
      if nonEmptyAfterStrip c then
        match json_load FileContent.empty with
        | Except.ok bs => bs
        | Except.error _ => []
      else []
  some (FileContent.json (bookings ++ [booking_details]))

/-- The capacityUsed quantity of the spec: the sum of visitor counts across
the ledger entries the bookings file actually stores, matching the museum
case-insensitively and the date string exactly. -/
def capacityUsed (museum date : String) (file : Option FileContent) : Nat :=
  visitorSum museum date (storedRecords file)

/-- Insertion into the museum_titles dict: a duplicate key keeps its first
position but takes the new value, as in a Python dict comprehension. -/
def dictInsert (k : String) (v : MuseumRecord) (d : List (String × MuseumRecord)) :
    List (String × MuseumRecord) :=
  if d.any (fun p => p.1 == k) then d.map (fun p => if p.1 == k then (k, v) else p)
  else d ++ [(k, v)]

/-- The museum_titles dict of find_best_museum (src/main.py line 55):
lowercased title to museum record. -/
def museum_titles (museum_data : List MuseumRecord) : List (String × MuseumRecord) :=
  museum_data.foldl (fun d m => dictInsert (lowerStr m.title) m d) []

/-- The processed query of find_best_museum (src/main.py line 57):
clean_input, remove the booking phrase, strip. -/
def museum_query (user_input : String) : String :=
  stripStr (replaceStr (clean_input user_input) "book me a ticket to" "")

/-- fuzzywuzzy process.extractOne with the similarity scorer abstracted:
highest-scoring choice, first one on ties, none on an empty choice list. -/
def extractOne (scorer : String → String → Nat) (query : String) (choices : List String) :
    Option (String × Nat) :=
  choices.foldl
    (fun acc c =>
      match acc with
      | none => some (c, scorer query c)
      | some (b, s) => if s < scorer query c then some (c, scorer query c) else some (b, s))
    none

/-- find_best_museum (src/main.py lines 54-68).  An exact (case-insensitive)
title match short-circuits; otherwise process.extractOne is consulted when
the dict is nonempty and its score is discarded (the underscore on line 63).
The Python truthiness test on best_match fails only for the empty string. -/
def find_best_museum (scorer : String → String → Nat) (museum_data : List MuseumRecord)
    (user_input : String) : Option MuseumRecord :=
  let titles := museum_titles museum_data
  let ui := museum_query user_input
  match List.lookup ui titles with
  | some m => some m
  | none =>
    match (match titles with
           | [] => none
           | _ :: _ => extractOne scorer ui (titles.map Prod.fst)) with
    | none => none
    | some (best, _) => if best == "" then none else List.lookup best titles

/-- The pydantic request model for POST book_ticket exactly as declared in
the source (src/main.py lines 70-71): a single field named message. -/
structure BookingRequest where
  message : String

/-- The field names the BookingRequest pydantic model declares. -/
def BookingRequest.declaredFields : List String := ["message"]

/-- The attribute names book_ticket dereferences on its request argument
(src/main.py lines 76-112), in first-access order. -/
def bookTicketAccessedFields : List String :=
  ["museum_name", "ticket_type", "booking_date", "time_slot", "adults", "kids", "name"]

/-- Attribute access on a pydantic model instance succeeds only for declared
fields; any other attribute raises AttributeError. -/
def hasAttr (declared : List String) (attr : String) : Bool := declared.contains attr

/-- The booking field values the body of book_ticket expects on its request.
The declared BookingRequest model does not carry them (see
BookingRequest.declaredFields); this structure stands for the values the
handler logic dereferences, so that the validator and price logic can be
stated independently of that defect. -/
structure RequestAttrs where
  name : String
  museum_name : String
  adults : Nat
  kids : Nat
  ticket_type : String
  booking_date : String
  time_slot : String

/-- The distinct HTTPException rejections book_ticket raises, in source
order: 404 museum not found; 400 invalid ticket type; 400 invalid date
format; 400 past date; 400 beyond 60 days; 400 date fully booked; 400
invalid time slot (listing the available slots). -/
inductive BookingError where
  | museumNotFound (museum_name : String)
  | invalidTicketType
  | invalidDateFormat
  | pastDate
  | bookingTooFar
  | dateFullyBooked
  | invalidTimeSlot (available_slots : List String)
  deriving DecidableEq

/-- Environment of a request: the catalog loaded at startup, the external
fuzzy scorer, and the wall clock (todays date and current hour). -/
structure Env where
  museum_data : List MuseumRecord
  scorer : String → String → Nat
  today : PyDate
  current_hour : Nat

/-- Python str.capitalize: first character uppercased, the rest lowercased. -/
def pyCapitalize (s : String) : String :=
  match s.data with
  | [] => ""
  | c :: cs => String.mk (Char.toUpper c :: cs.map Char.toLower)

/-- book_ticket (src/main.py lines 74-118), as a function of the request
attribute values, the environment and the bookings file.  Checks in source
order: museum resolution, ticket tier membership (the later delta lookup is
fused into the same match), date parse, past date, 60-day horizon
(booking_date > today + timedelta(60) is ordinal comparison), capacity,
time slot (normalized membership in the available slots).  On success the
confirmation record is appended via save_booking; every rejection leaves the
file untouched. -/
def book_ticket (env : Env) (req : RequestAttrs) (file : Option FileContent) :
    Except BookingError BookingRecord × Option FileContent :=
  match find_best_museum env.scorer env.museum_data req.museum_name with
  | none => (Except.error (BookingError.museumNotFound req.museum_name), file)
  | some museum =>
    match List.lookup (lowerStr req.ticket_type) TICKET_TYPE with
    | none => (Except.error BookingError.invalidTicketType, file)
    | some delta =>
      match parse_date req.booking_date with
      | none => (Except.error BookingError.invalidDateFormat, file)
      | some booking_date =>
        if toOrdinal booking_date < toOrdinal env.today then
          (Except.error BookingError.pastDate, file)
        else if toOrdinal env.today + 60 < toOrdinal booking_date then
          (Except.error BookingError.bookingTooFar, file)
        else if MAX_VISITORS_PER_DAY ≤ check_capacity museum.title req.booking_date file then
          (Except.error BookingError.dateFullyBooked, file)
        else
          let available_slots := get_available_time_slots req.booking_date env.today env.current_hour
          if ((available_slots.map normalize_time_slot).contains
              (normalize_time_slot req.time_slot)) = false then
            (Except.error (BookingError.invalidTimeSlot available_slots), file)
          else
            let ticket_price : Nat := museum.price + delta
            let total_price : Dyadic :=
              Dyadic.add (Dyadic.ofNat (req.adults * ticket_price))
                (Dyadic.mul (Dyadic.ofNat (req.kids * ticket_price)) pyHalf)
            let details : BookingRecord :=
              { name := req.name
                museum := museum.title
                adults := req.adults
                kids := req.kids
                ticketType := pyCapitalize req.ticket_type
                date := req.booking_date
                timeSlot := req.time_slot
                totalPrice := total_price }
            (Except.ok details, save_booking details file)

/-- Did the handler confirm the booking? -/
def isConfirmed (r : Except BookingError BookingRecord) : Bool :=
  match r with
  | Except.ok _ => true
  | Except.error _ => false

/-- The greeting set of get_relevant_museum (src/main.py line 131). -/
def GREETINGS : List String :=
  ["hi", "hello", "hey", "good morning", "good afternoon", "good evening"]

/-- The canned greeting response (src/main.py line 133). -/
def GREETING_RESPONSE : String :=
  "Hello! How can I assist you with museum information or ticket booking today?"

/-- The cleaned chat input (src/main.py line 129): clean_input then a second
(idempotent) lowercasing. -/
def chatCleaned (user_input : String) : String := lowerStr (clean_input user_input)

/-- The head of get_relevant_museum (src/main.py lines 128-133): if any
greeting word occurs as a substring of the cleaned input, the canned greeting
is returned; every later intent (thanks, booking, tier info, price, rating,
contact, location, top-N, the language-model fallback, lines 135-274) is
abstracted as the continuation rest applied to the cleaned input. -/
def get_relevant_museum (rest : String → String) (user_input : String) : String :=
  let ui := chatCleaned user_input
  if GREETINGS.any (fun word => occursStr ui word) then GREETING_RESPONSE
  else rest ui

/-- A concrete catalog entry used by the concrete evaluations below. -/
def louvre : MuseumRecord :=
  { title := "Louvre"
    location := "Paris"
    state := "France"
    price := 100
    rating := ⟨9, 1⟩
    contact := "0123456789"
    address := "Rue de Rivoli" }

def catalog0 : List MuseumRecord := [louvre]

/-- A concrete stand-in for the external fuzzy scorer: every comparison
scores 10 (far below the threshold of 80 the spec mentions). -/
def scorer0 : String → String → Nat := fun _ _ => 10

/-- A concrete clock: 2026-10-12, 15:00. -/
def env0 : Env :=
  { museum_data := catalog0, scorer := scorer0, today := ⟨2026, 10, 12⟩, current_hour := 15 }

/-- The booking of the spec example: 2 adults, 1 kid, standard tier, at a
museum with base price 100. -/
def req0 : RequestAttrs :=
  { name := "Alice"
    museum_name := "Louvre"
    adults := 2
    kids := 1
    ticket_type := "standard"
    booking_date := "2026-10-20"
    time_slot := "10:00 AM" }

/-- The record book_ticket persists for req0. -/
def rec0 : BookingRecord :=
  { name := "Alice"
    museum := "Louvre"
    adults := 2
    kids := 1
    ticketType := "Standard"
    date := "2026-10-20"
    timeSlot := "10:00 AM"
    totalPrice := ⟨250, 0⟩ }

/-- A single oversized booking: 501 adults on an empty ledger. -/
def req3 : RequestAttrs :=
  { name := "Mallory"
    museum_name := "Louvre"
    adults := 501
    kids := 0
    ticket_type := "standard"
    booking_date := "2026-10-20"
    time_slot := "10:00 AM" }

/-- A stored record that already saturates the daily cap for Louvre on
2026-10-20 (500 visitors). -/
def rec500 : BookingRecord :=
  { name := "Crowd"
    museum := "Louvre"
    adults := 500
    kids := 0
    ticketType := "Standard"
    date := "2026-10-20"
    timeSlot := "10:00 AM"
    totalPrice := ⟨50000, 0⟩ }

/-- A bookings file already holding rec500. -/
def file500 : Option FileContent := some (FileContent.json [rec500])

/-- Two distinct well-formed ledger records, for the append behaviour. -/
def recA : BookingRecord :=
  { name := "First"
    museum := "Louvre"
    adults := 3
    kids := 0
    ticketType := "Standard"
    date := "2026-10-20"
    timeSlot := "11:00 AM"
    totalPrice := ⟨300, 0⟩ }

def recB : BookingRecord :=
  { name := "Second"
    museum := "Louvre"
    adults := 2
    kids := 2
    ticketType := "Standard"
    date := "2026-10-20"
    timeSlot := "12:00 PM"
    totalPrice := ⟨300, 0⟩ }

/-- A booking for todays own date with a morning slot (the clock in env0
reads 15:00). -/
def req7 : RequestAttrs :=
  { name := "Eve"
    museum_name := "Louvre"
    adults := 1
    kids := 0
    ticket_type := "standard"
    booking_date := "2026-10-12"
    time_slot := "10:00 AM" }

def rec7 : BookingRecord :=
  { name := "Eve"
    museum := "Louvre"
    adults := 1
    kids := 0
    ticketType := "Standard"
    date := "2026-10-12"
    timeSlot := "10:00 AM"
    totalPrice := ⟨100, 0⟩ }

/-- A request naming no museum remotely like a catalog title. -/
def req8 : RequestAttrs :=
  { name := "Bob"
    museum_name := "zzz"
    adults := 1
    kids := 0
    ticket_type := "standard"
    booking_date := "2026-10-20"
    time_slot := "10:00 AM" }

def rec8 : BookingRecord :=
  { name := "Bob"
    museum := "Louvre"
    adults := 1
    kids := 0
    ticketType := "Standard"
    date := "2026-10-20"
    timeSlot := "10:00 AM"
    totalPrice := ⟨100, 0⟩ }

/-- A request for a past date (today in env0 is 2026-10-12). -/
def reqPast : RequestAttrs :=
  { name := "Pat"
    museum_name := "Louvre"
    adults := 1
    kids := 0
    ticket_type := "standard"
    booking_date := "2026-10-01"
    time_slot := "10:00 AM" }

/-- A request 80 days out. -/
def reqFar : RequestAttrs :=
  { name := "Fay"
    museum_name := "Louvre"
    adults := 1
    kids := 0
    ticket_type := "standard"
    booking_date := "2026-12-31"
    time_slot := "10:00 AM" }

/-- A request 30 days out. -/
def reqOk : RequestAttrs :=
  { name := "Okko"
    museum_name := "Louvre"
    adults := 1
    kids := 0
    ticket_type := "standard"
    booking_date := "2026-11-11"
    time_slot := "10:00 AM" }

theorem Dyadic.normAux_toRat (e m : Nat) : (Dyadic.normAux m e).toRat = (m : ℚ) / 2 ^ e := by
  induction e generalizing m with
  | zero => simp [Dyadic.normAux, Dyadic.toRat]
  | succ e ih =>
    by_cases h : m % 2 = 0
    · obtain ⟨k, hk⟩ := Nat.dvd_of_mod_eq_zero h
      subst hk
      rw [Dyadic.normAux]
      simp only [h, if_pos, Nat.mul_div_cancel_left k (by norm_num : 0 < 2)]
      rw [ih, pow_succ]
      push_cast
      rw [mul_comm ((2 : ℚ) ^ e) 2, mul_div_mul_left _ _ (by norm_num : (2 : ℚ) ≠ 0)]
    · rw [Dyadic.normAux]
      simp [h, Dyadic.toRat]

theorem Dyadic.add_toRat (a b : Dyadic) : (a.add b).toRat = a.toRat + b.toRat := by
  unfold Dyadic.add
  rw [Dyadic.normAux_toRat]
  unfold Dyadic.toRat
  push_cast
  rw [pow_add]
  field_simp

theorem Dyadic.mul_toRat (a b : Dyadic) : (a.mul b).toRat = a.toRat * b.toRat := by
  unfold Dyadic.mul
  rw [Dyadic.normAux_toRat]
  unfold Dyadic.toRat
  push_cast
  rw [pow_add]
  field_simp

theorem Dyadic.ofNat_toRat (n : Nat) : (Dyadic.ofNat n).toRat = (n : ℚ) := by
  simp [Dyadic.ofNat, Dyadic.toRat]

theorem pyHalf_toRat : pyHalf.toRat = (0.5 : ℚ) := by
  norm_num [pyHalf, Dyadic.toRat]

/-- Inversion of a confirmed booking: every guard of book_ticket passed, the
confirmation record is exactly the details dict, and the new file is the
ledger append of that record. -/
theorem book_ticket_ok_inv (env : Env) (req : RequestAttrs) (file : Option FileContent)
    (r : BookingRecord) (f2 : Option FileContent)
    (h : book_ticket env req file = (Except.ok r, f2)) :
    ∃ museum delta booking_date,
      find_best_museum env.scorer env.museum_data req.museum_name = some museum ∧
      List.lookup (lowerStr req.ticket_type) TICKET_TYPE = some delta ∧
      parse_date req.booking_date = some booking_date ∧
      ¬ toOrdinal booking_date < toOrdinal env.today ∧
      ¬ toOrdinal env.today + 60 < toOrdinal booking_date ∧
      check_capacity museum.title req.booking_date file < MAX_VISITORS_PER_DAY ∧
      ((get_available_time_slots req.booking_date env.today env.current_hour).map
          normalize_time_slot).contains (normalize_time_slot req.time_slot) = true ∧
      r = { name := req.name
            museum := museum.title
            adults := req.adults
            kids := req.kids
            ticketType := pyCapitalize req.ticket_type
            date := req.booking_date
            timeSlot := req.time_slot
            totalPrice :=
              Dyadic.add (Dyadic.ofNat (req.adults * (museum.price + delta)))
                (Dyadic.mul (Dyadic.ofNat (req.kids * (museum.price + delta))) pyHalf) } ∧
      f2 = save_booking r file := by
  unfold book_ticket at h
  split at h
  · simp at h
  next museum hfind =>
    split at h
    · simp at h
    next delta htier =>
      split at h
      · simp at h
      next bd hparse =>
        split at h
        · simp at h
        next hpast =>
          split at h
          · simp at h
          next hfar =>
            split at h
            · simp at h
            next hcap =>
              simp only [] at h
              split at h
              · simp at h
              next hslot =>
                simp only [Prod.mk.injEq, Except.ok.injEq] at h
                obtain ⟨hr, hf⟩ := h
                refine ⟨museum, delta, bd, hfind, htier, hparse, hpast, hfar, ?_, ?_, ?_, ?_⟩
                · omega
                · cases hc : ((get_available_time_slots req.booking_date env.today
                      env.current_hour).map normalize_time_slot).contains
                      (normalize_time_slot req.time_slot)
                  · exact absurd hc hslot
                  · rfl
                · exact hr.symm
                · rw [← hr]; exact hf.symm

/-- A rejected request leaves the bookings file exactly as it was:
save_booking runs only after every guard has passed. -/
theorem book_ticket_not_ok_snd (env : Env) (req : RequestAttrs) (file : Option FileContent)
    (res : Except BookingError BookingRecord) (f : Option FileContent)
    (hbt : book_ticket env req file = (res, f)) (hnc : isConfirmed res = false) : f = file := by
  unfold book_ticket at hbt
  split at hbt
  · injection hbt with h1 h2; exact h2.symm
  · split at hbt
    · injection hbt with h1 h2; exact h2.symm
    · split at hbt
      · injection hbt with h1 h2; exact h2.symm
      · split at hbt
        · injection hbt with h1 h2; exact h2.symm
        · split at hbt
          · injection hbt with h1 h2; exact h2.symm
          · split at hbt
            · injection hbt with h1 h2; exact h2.symm
            · simp only [] at hbt
              split at hbt
              · injection hbt with h1 h2; exact h2.symm
              · injection hbt with h1 h2
                rw [← h1] at hnc
                simp [isConfirmed] at hnc

/-- The past-date rejection fires only when the parsed date is strictly
before today. -/
theorem book_ticket_pastDate_inv (env : Env) (req : RequestAttrs) (file : Option FileContent)
    (h : (book_ticket env req file).1 = Except.error BookingError.pastDate) :
    ∃ d, parse_date req.booking_date = some d ∧ toOrdinal d < toOrdinal env.today := by
  rcases hbt : book_ticket env req file with ⟨res, f⟩
  rw [hbt] at h
  simp only at h
  subst h
  unfold book_ticket at hbt
  split at hbt
  · injection hbt with h1 h2; simp at h1
  · split at hbt
    · injection hbt with h1 h2; simp at h1
    · split at hbt
      · injection hbt with h1 h2; simp at h1
      next bd hparse =>
        split at hbt
        next hpast => exact ⟨bd, hparse, hpast⟩
        · split at hbt
          · injection hbt with h1 h2; simp at h1
          · split at hbt
            · injection hbt with h1 h2; simp at h1
            · simp only [] at hbt
              split at hbt
              · injection hbt with h1 h2; simp at h1
              · injection hbt with h1 h2; simp at h1

/-- The 60-day rejection fires only when the parsed date lies strictly more
than 60 days past today (and is not in the past). -/
theorem book_ticket_tooFar_inv (env : Env) (req : RequestAttrs) (file : Option FileContent)
    (h : (book_ticket env req file).1 = Except.error BookingError.bookingTooFar) :
    ∃ d, parse_date req.booking_date = some d ∧ toOrdinal env.today + 60 < toOrdinal d := by
  rcases hbt : book_ticket env req file with ⟨res, f⟩
  rw [hbt] at h
  simp only at h
  subst h
  unfold book_ticket at hbt
  split at hbt
  · injection hbt with h1 h2; simp at h1
  · split at hbt
    · injection hbt with h1 h2; simp at h1
    · split at hbt
      · injection hbt with h1 h2; simp at h1
      next bd hparse =>
        split at hbt
        · injection hbt with h1 h2; simp at h1
        · split at hbt
          next hfar => exact ⟨bd, hparse, hfar⟩
          · split at hbt
            · injection hbt with h1 h2; simp at h1
            · simp only [] at hbt
              split at hbt
              · injection hbt with h1 h2; simp at h1
              · injection hbt with h1 h2; simp at h1

/-- C1: the claim says POST book_ticket reads the booking fields (name,
museum reference, adults, kids, tier, date, slot) from the request body and
confirms valid bookings.  In the source the declared pydantic model carries
only the field message, while book_ticket dereferences seven other
attributes, the first being museum_name; every attribute access on an
undeclared pydantic field raises AttributeError, so no request can reach the
validator at all. -/
theorem C1_request_model_missing_fields :
    bookTicketAccessedFields.head? = some "museum_name" ∧
    hasAttr BookingRequest.declaredFields "museum_name" = false ∧
    bookTicketAccessedFields.all (fun f => !hasAttr BookingRequest.declaredFields f) = true := by
  decide

/-- C2: the claim says the ledger append preserves every previously stored
record.  In the source the read inside save_booking evaluates f.read()
before json.load(f), so the load always parses empty input, the prior
collection is replaced by the empty list, and the rewritten file holds only
the new record: appending recB to a file storing recA yields a file storing
just recB. -/
theorem C2_save_booking_drops_prior_records :
    storedRecords (save_booking recB (some (FileContent.json [recA]))) = [recB] ∧
    ([recB] : List BookingRecord) ≠ [recA] ++ [recB] := by
  exact ⟨rfl, by decide⟩

/-- C3 (amended): what the code guarantees after a successful booking is
that the capacity reading it took before appending (check_capacity on the
pre-state) was strictly below the daily cap of 500; the post-append visitor
sum is not bounded by the cap. -/
theorem C3_precheck_below_cap (env : Env) (req : RequestAttrs) (file : Option FileContent)
    (museum : MuseumRecord) (r : BookingRecord) (f2 : Option FileContent)
    (hm : find_best_museum env.scorer env.museum_data req.museum_name = some museum)
    (h : book_ticket env req file = (Except.ok r, f2)) :
    check_capacity museum.title req.booking_date file < MAX_VISITORS_PER_DAY := by
  obtain ⟨mu, de, bd, hfind, htier, hparse, hpast, hfar, hcap, hslot, hr, hf⟩ :=
    book_ticket_ok_inv env req file r f2 h
  rw [hfind] at hm
  injection hm with hm

theorem C3_precheck_below_cap_witness :
    check_capacity louvre.title req0.booking_date none < MAX_VISITORS_PER_DAY :=
  C3_precheck_below_cap env0 req0 none louvre rec0 (some (FileContent.json [rec0])) rfl rfl

/-- C3 (counterexample): a single booking of 501 adults on an empty ledger
is confirmed, and afterwards the stored visitor sum for that museum and date
is 501, above the cap of 500 — the claimed invariant does not hold. -/
theorem C3_cap_invariant_counterexample :
    isConfirmed (book_ticket env0 req3 none).1 = true ∧
    capacityUsed "Louvre" "2026-10-20" (book_ticket env0 req3 none).2 = 501 ∧
    MAX_VISITORS_PER_DAY < 501 := by
  exact ⟨rfl, rfl, by decide⟩

/-- C4: the claim says a museum/date pair whose stored visitor sum has
reached the cap rejects every further booking.  The stored sum in file500 is
500 (the cap), yet check_capacity reads 0 — the f.read()-then-json.load
defect makes every capacity reading 0 — and the same request is confirmed,
not rejected. -/
theorem C4_full_ledger_not_rejected :
    MAX_VISITORS_PER_DAY ≤ capacityUsed "Louvre" "2026-10-20" file500 ∧
    check_capacity "Louvre" "2026-10-20" file500 = 0 ∧
    book_ticket env0 req0 file500 = (Except.ok rec0, some (FileContent.json [rec0])) := by
  exact ⟨by decide, rfl, rfl⟩

/-- C5: on every confirmed booking the recorded total price equals
adults times the tier price plus kids times the tier price times 0.5, where
the tier price is the museum base price plus the tier delta. -/
theorem C5_total_price_formula (env : Env) (req : RequestAttrs) (file : Option FileContent)
    (museum : MuseumRecord) (delta : Nat) (r : BookingRecord) (f2 : Option FileContent)
    (hm : find_best_museum env.scorer env.museum_data req.museum_name = some museum)
    (ht : List.lookup (lowerStr req.ticket_type) TICKET_TYPE = some delta)
    (h : book_ticket env req file = (Except.ok r, f2)) :
    r.totalPrice.toRat =
      (req.adults : ℚ) * ((museum.price : ℚ) + (delta : ℚ))
        + (req.kids : ℚ) * ((museum.price : ℚ) + (delta : ℚ)) * (0.5 : ℚ) := by
  obtain ⟨mu, de, bd, hfind, htier, hparse, hpast, hfar, hcap, hslot, hr, hf⟩ :=
    book_ticket_ok_inv env req file r f2 h
  rw [hfind] at hm
  injection hm with hm
  rw [htier] at ht
  injection ht with ht
  subst hm
  subst ht
  subst hr
  dsimp only
  rw [Dyadic.add_toRat, Dyadic.mul_toRat, Dyadic.ofNat_toRat, Dyadic.ofNat_toRat, pyHalf_toRat]
  push_cast
  ring

/-- Witness for C5, instantiating the spec example: 2 adults and 1 kid at
tier standard with base price 100 give a stored total of 250. -/
theorem C5_total_price_formula_witness :
    rec0.totalPrice.toRat =
      ((2 : Nat) : ℚ) * (((100 : Nat) : ℚ) + ((0 : Nat) : ℚ))
        + ((1 : Nat) : ℚ) * (((100 : Nat) : ℚ) + ((0 : Nat) : ℚ)) * (0.5 : ℚ) ∧
    rec0.totalPrice.toRat = 250 :=
  ⟨C5_total_price_formula env0 req0 none louvre 0 rec0 (some (FileContent.json [rec0]))
      rfl rfl rfl,
    by norm_num [rec0, Dyadic.toRat]⟩

/-- C6: a request whose date parses strictly before today is never
confirmed; one parsing strictly more than 60 days past today is never
confirmed; and a date inside the window [today, today + 60] is rejected by
neither of those two checks. -/
theorem C6_date_range_checks (env : Env) (req : RequestAttrs) (file : Option FileContent)
    (d : PyDate) (hp : parse_date req.booking_date = some d) :
    (toOrdinal d < toOrdinal env.today → isConfirmed (book_ticket env req file).1 = false) ∧
    (toOrdinal env.today + 60 < toOrdinal d → isConfirmed (book_ticket env req file).1 = false) ∧
    (¬ toOrdinal d < toOrdinal env.today → ¬ toOrdinal env.today + 60 < toOrdinal d →
      (book_ticket env req file).1 ≠ Except.error BookingError.pastDate ∧
      (book_ticket env req file).1 ≠ Except.error BookingError.bookingTooFar) := by
  refine ⟨?_, ?_, ?_⟩
  · intro hlt
    cases hok : isConfirmed (book_ticket env req file).1 with
    | false => rfl
    | true =>
      exfalso
      rcases hbt : book_ticket env req file with ⟨res, f⟩
      rw [hbt] at hok
      cases res with
      | error e => simp [isConfirmed] at hok
      | ok r =>
        obtain ⟨mu, de, bd, hfind, htier, hparse, hpast, hfar, hcap, hslot, hr, hf⟩ :=
          book_ticket_ok_inv env req file r f hbt
        rw [hp] at hparse
        injection hparse with hbd
        rw [hbd] at hlt
        exact hpast hlt
  · intro hgt
    cases hok : isConfirmed (book_ticket env req file).1 with
    | false => rfl
    | true =>
      exfalso
      rcases hbt : book_ticket env req file with ⟨res, f⟩
      rw [hbt] at hok
      cases res with
      | error e => simp [isConfirmed] at hok
      | ok r =>
        obtain ⟨mu, de, bd, hfind, htier, hparse, hpast, hfar, hcap, hslot, hr, hf⟩ :=
          book_ticket_ok_inv env req file r f hbt
        rw [hp] at hparse
        injection hparse with hbd
        rw [hbd] at hgt
        exact hfar hgt
  · intro h1 h2
    constructor
    · intro hres
      obtain ⟨d2, hp2, hlt2⟩ := book_ticket_pastDate_inv env req file hres
      rw [hp] at hp2
      injection hp2 with hd2
      rw [← hd2] at hlt2
      exact h1 hlt2
    · intro hres
      obtain ⟨d2, hp2, hgt2⟩ := book_ticket_tooFar_inv env req file hres
      rw [hp] at hp2
      injection hp2 with hd2
      rw [← hd2] at hgt2
      exact h2 hgt2

/-- Witness for C6: with todays date 2026-10-12, a request for 2026-10-01 is
not confirmed, a request for 2026-12-31 (80 days out) is not confirmed, and
a request for 2026-11-11 trips neither date rejection. -/
theorem C6_date_range_checks_witness :
    isConfirmed (book_ticket env0 reqPast none).1 = false ∧
    isConfirmed (book_ticket env0 reqFar none).1 = false ∧
    ((book_ticket env0 reqOk none).1 ≠ Except.error BookingError.pastDate ∧
      (book_ticket env0 reqOk none).1 ≠ Except.error BookingError.bookingTooFar) :=
  ⟨(C6_date_range_checks env0 reqPast none ⟨2026, 10, 1⟩ rfl).1 (by decide),
    (C6_date_range_checks env0 reqFar none ⟨2026, 12, 31⟩ rfl).2.1 (by decide),
    (C6_date_range_checks env0 reqOk none ⟨2026, 11, 11⟩ rfl).2.2 (by decide) (by decide)⟩

/-- C7: the claim (and the stated intent in the spec) is that a booking for
todays date admits only slots later than the current hour.  In the source
get_available_time_slots receives the raw date string and compares it for
equality with a date object, which is always False in Python, so the full
slot list is offered even for today: at 15:00 on 2026-10-12 a booking for
2026-10-12 at 10:00 AM is confirmed. -/
theorem C7_today_slot_rule_dead :
    parse_date req7.booking_date = some env0.today ∧
    slotHour req7.time_slot ≤ env0.current_hour ∧
    get_available_time_slots req7.booking_date env0.today env0.current_hour = TIME_SLOTS ∧
    book_ticket env0 req7 none = (Except.ok rec7, some (FileContent.json [rec7])) := by
  exact ⟨rfl, by decide, rfl, rfl⟩

/-- C8 (amended): when there is no exact case-insensitive title match and
the catalog is nonempty, find_best_museum accepts the extractOne candidate
whatever its score (the score is discarded); the unknown-museum failure
arises only when the catalog dict is empty or the matched key is the empty
string. -/
theorem C8_fuzzy_accept_any_score (scorer : String → String → Nat)
    (museum_data : List MuseumRecord) (user_input : String) (best : String) (score : Nat)
    (hx : List.lookup (museum_query user_input) (museum_titles museum_data) = none)
    (he : extractOne scorer (museum_query user_input)
        ((museum_titles museum_data).map Prod.fst) = some (best, score))
    (hb : (best == "") = false) :
    find_best_museum scorer museum_data user_input =
      List.lookup best (museum_titles museum_data) := by
  have hne : museum_titles museum_data ≠ [] := by
    intro hnil
    rw [hnil] at he
    simp [extractOne] at he
  unfold find_best_museum
  simp only []
  rw [hx]
  cases htl : museum_titles museum_data with
  | nil => exact absurd htl hne
  | cons p ts =>
    rw [htl] at he
    rw [he]
    simp only [hb]
    rfl

/-- Witness for C8 (amended): the constant scorer awards 10, far below 80,
and the fuzzy candidate is still accepted. -/
theorem C8_fuzzy_accept_any_score_witness :
    find_best_museum scorer0 catalog0 "zzz" = List.lookup "louvre" (museum_titles catalog0) :=
  C8_fuzzy_accept_any_score scorer0 catalog0 "zzz" "louvre" 10 rfl rfl rfl

/-- C8 (counterexample): the claim says a fuzzy candidate is accepted only
with score at least 80, otherwise the request fails with unknown museum.
With a scorer awarding 10 to every comparison, the query zzz has no exact
match, the best candidate scores 10 < 80, and the booking is nevertheless
resolved to the Louvre and confirmed. -/
theorem C8_fuzzy_threshold_counterexample :
    List.lookup (museum_query "zzz") (museum_titles catalog0) = none ∧
    extractOne scorer0 (museum_query "zzz") ((museum_titles catalog0).map Prod.fst)
      = some ("louvre", 10) ∧
    (10 : Nat) < 80 ∧
    find_best_museum scorer0 catalog0 "zzz" = some louvre ∧
    book_ticket env0 req8 none = (Except.ok rec8, some (FileContent.json [rec8])) := by
  exact ⟨rfl, rfl, by decide, rfl, rfl⟩

/-- C9: each validation failure returns its own rejection, the first
violated rule in source order wins (museum resolution, then tier, date
parse, past date, 60-day horizon, capacity, slot), and a rejected request
leaves the bookings file unchanged. -/
theorem C9_fail_fast_order (env : Env) (req : RequestAttrs) (file : Option FileContent) :
    (find_best_museum env.scorer env.museum_data req.museum_name = none →
      book_ticket env req file
        = (Except.error (BookingError.museumNotFound req.museum_name), file)) ∧
    (∀ museum, find_best_museum env.scorer env.museum_data req.museum_name = some museum →
      List.lookup (lowerStr req.ticket_type) TICKET_TYPE = none →
      book_ticket env req file = (Except.error BookingError.invalidTicketType, file)) ∧
    (∀ museum delta, find_best_museum env.scorer env.museum_data req.museum_name = some museum →
      List.lookup (lowerStr req.ticket_type) TICKET_TYPE = some delta →
      parse_date req.booking_date = none →
      book_ticket env req file = (Except.error BookingError.invalidDateFormat, file)) ∧
    (∀ museum delta d, find_best_museum env.scorer env.museum_data req.museum_name = some museum →
      List.lookup (lowerStr req.ticket_type) TICKET_TYPE = some delta →
      parse_date req.booking_date = some d →
      toOrdinal d < toOrdinal env.today →
      book_ticket env req file = (Except.error BookingError.pastDate, file)) ∧
    (∀ museum delta d, find_best_museum env.scorer env.museum_data req.museum_name = some museum →
      List.lookup (lowerStr req.ticket_type) TICKET_TYPE = some delta →
      parse_date req.booking_date = some d →
      ¬ toOrdinal d < toOrdinal env.today →
      toOrdinal env.today + 60 < toOrdinal d →
      book_ticket env req file = (Except.error BookingError.bookingTooFar, file)) ∧
    (∀ museum delta d, find_best_museum env.scorer env.museum_data req.museum_name = some museum →
      List.lookup (lowerStr req.ticket_type) TICKET_TYPE = some delta →
      parse_date req.booking_date = some d →
      ¬ toOrdinal d < toOrdinal env.today →
      ¬ toOrdinal env.today + 60 < toOrdinal d →
      MAX_VISITORS_PER_DAY ≤ check_capacity museum.title req.booking_date file →
      book_ticket env req file = (Except.error BookingError.dateFullyBooked, file)) ∧
    (∀ museum delta d, find_best_museum env.scorer env.museum_data req.museum_name = some museum →
      List.lookup (lowerStr req.ticket_type) TICKET_TYPE = some delta →
      parse_date req.booking_date = some d →
      ¬ toOrdinal d < toOrdinal env.today →
      ¬ toOrdinal env.today + 60 < toOrdinal d →
      ¬ MAX_VISITORS_PER_DAY ≤ check_capacity museum.title req.booking_date file →
      ((get_available_time_slots req.booking_date env.today env.current_hour).map
          normalize_time_slot).contains (normalize_time_slot req.time_slot) = false →
      book_ticket env req file
        = (Except.error (BookingError.invalidTimeSlot
            (get_available_time_slots req.booking_date env.today env.current_hour)), file)) ∧
    (isConfirmed (book_ticket env req file).1 = false →
      (book_ticket env req file).2 = file) := by
  refine ⟨?_, ?_, ?_, ?_, ?_, ?_, ?_, ?_⟩
  · intro hf
    simp only [book_ticket, hf]
  · intro museum hf ht
    simp only [book_ticket, hf, ht]
  · intro museum delta hf ht hp
    simp only [book_ticket, hf, ht, hp]
  · intro museum delta d hf ht hp hlt
    simp only [book_ticket, hf, ht, hp, if_pos hlt]
  · intro museum delta d hf ht hp hlt hgt
    simp only [book_ticket, hf, ht, hp, if_neg hlt, if_pos hgt]
  · intro museum delta d hf ht hp hlt hgt hcap
    simp only [book_ticket, hf, ht, hp, if_neg hlt, if_neg hgt, if_pos hcap]
  · intro museum delta d hf ht hp hlt hgt hcap hslot
    simp only [book_ticket, hf, ht, hp, if_neg hlt, if_neg hgt, if_neg hcap, if_pos hslot]
  · intro hnc
    exact book_ticket_not_ok_snd env req file _ _ rfl hnc

/-- Witness for C9: a past-date request with a resolvable museum and a valid
tier is rejected with the past-date reason and the file is untouched. -/
theorem C9_fail_fast_order_witness :
    book_ticket env0 reqPast none = (Except.error BookingError.pastDate, none) :=
  (C9_fail_fast_order env0 reqPast none).2.2.2.1 louvre 0 ⟨2026, 10, 1⟩ rfl rfl rfl (by decide)

/-- C10: the greeting intent tests substring containment of a greeting word
in the cleaned input, so any input whose cleaned text contains hi, hey or
hello anywhere — also inside a longer word such as a museum name — gets the
canned greeting, whatever the later intents would have said. -/
theorem C10_greeting_substring_dispatch (rest : String → String) (user_input : String)
    (h : occursStr (chatCleaned user_input) "hi" = true ∨
        occursStr (chatCleaned user_input) "hey" = true ∨
        occursStr (chatCleaned user_input) "hello" = true) :
    get_relevant_museum rest user_input = GREETING_RESPONSE := by
  unfold get_relevant_museum
  have hany : (GREETINGS.any fun word => occursStr (chatCleaned user_input) word) = true := by
    rcases h with h | h | h <;> simp [GREETINGS] <;> tauto
  simp [hany]

/-- Witness for C10: the museum-name query about the Chhatrapati Shivaji
Museum contains hi inside Shivaji and is answered with the greeting. -/
theorem C10_greeting_substring_dispatch_witness :
    get_relevant_museum (fun s => s) "Tell me about Chhatrapati Shivaji Museum"
      = GREETING_RESPONSE :=
  C10_greeting_substring_dispatch (fun s => s) "Tell me about Chhatrapati Shivaji Museum"
    (Or.inl (by decide))
